import Mathlib

/-!
Shallow embedding of the Stratum V2 Template Provider core
(`src/sv2/template_provider.cpp`): the template cache and its pruning
policy, the per-client watcher fee/timeout decision and tip-update
logic, the wire-message emission (`SendWork`), the transaction-data
query handler (`RequestTransactionData`), and the supervisor startup
phase.  Hashes (`uint256`) are modelled as `Nat`; wall-clock seconds as
`Int`; byte vectors as `List Nat`; the `std::map` template cache as an
association list with `std::map::insert` semantics (no overwrite of an
existing key).
-/

/-- `uint256`, abstracted: only equality is used by this code. -/
abbrev Hash := Nat

/-- `CBlockHeader`, restricted to the one field this code reads. -/
structure CBlockHeader where
  hashPrevBlock : Hash
deriving DecidableEq, Repr

/-- `CScriptWitness`: a stack of byte vectors. -/
structure CScriptWitness where
  stack : List (List Nat)
deriving DecidableEq, Repr

/-- Modelled from the spec: `CScriptWitness::IsNull` is defined outside
`src/` (in the node primitives); the spec treats "the coinbase has no
witness" as the witness being null, which for a witness that is only a
stack means the stack is empty. -/
def CScriptWitness.IsNull (w : CScriptWitness) : Bool := w.stack.isEmpty

/-- `CTxIn`, restricted to the field this code reads. -/
structure CTxIn where
  scriptWitness : CScriptWitness
deriving DecidableEq, Repr

/-- `CTransaction`, restricted to the field this code reads. -/
structure CTransaction where
  vin : List CTxIn
deriving DecidableEq, Repr

/-- `CBlock`: previous-block hash (inherited from `CBlockHeader` in the
source) and the transaction list, coinbase first. -/
structure CBlock where
  hashPrevBlock : Hash
  vtx : List CTransaction
deriving DecidableEq, Repr

/-- `interfaces::BlockTemplate`, restricted to the getters this code
calls.  The coinbase tx, merkle path and witness-commitment index are
opaque to this code: they are only copied into `NewTemplate`, so they
are modelled as abstract tokens. -/
structure BlockTemplate where
  header : CBlockHeader
  block : CBlock
  coinbaseTx : Nat
  coinbaseMerklePath : Nat
  witnessCommitmentIndex : Int
deriving DecidableEq, Repr

def BlockTemplate.getBlockHeader (t : BlockTemplate) : CBlockHeader := t.header

def BlockTemplate.getBlock (t : BlockTemplate) : CBlock := t.block

/-- The wire messages this code enqueues (opcodes 0x71, 0x72, 0x74, 0x75). -/
inductive Sv2Msg where
  | NewTemplate (header : CBlockHeader) (coinbaseTx : Nat) (coinbaseMerklePath : Nat)
      (witnessCommitmentIndex : Int) (template_id : Nat) (future_template : Bool)
  | SetNewPrevHash (header : CBlockHeader) (template_id : Nat)
  | RequestTransactionDataSuccess (template_id : Nat) (witness_reserve_value : List Nat)
      (txs : List CTransaction)
  | RequestTransactionDataError (template_id : Nat) (reason : String)
deriving DecidableEq, Repr

/-- `Sv2Client`, restricted to the fields this code touches. -/
structure Sv2Client where
  m_id : Nat
  m_send_messages : List Sv2Msg
  m_disconnect_flag : Bool
deriving DecidableEq, Repr

/-- `std::map::find` on the association-list cache. -/
def mapFind (m : List (Nat × BlockTemplate)) (k : Nat) : Option BlockTemplate :=
  (m.find? (fun kv => kv.1 == k)).map (fun kv => kv.2)

/-- `std::map::insert`: no effect when the key is already present.  The
list records insertion order, which is all the claims need. -/
def mapInsert (m : List (Nat × BlockTemplate)) (k : Nat) (v : BlockTemplate) :
    List (Nat × BlockTemplate) :=
  if (m.find? (fun kv => kv.1 == k)).isSome then m else m ++ [(k, v)]

/-- The supervisor state guarded by `m_tp_mutex`. -/
structure TPState where
  m_best_prev_hash : Hash
  m_last_block_time : Int
  m_template_id : Nat
  m_block_template_cache : List (Nat × BlockTemplate)
deriving DecidableEq, Repr

/-- `Sv2TemplateProvider::PruneBlockTemplateCache`, with the current
wall-clock second passed explicitly.  The source computes
`recent = now - 10s` and returns early when `m_last_block_time > recent`;
otherwise it erases every cache entry whose header field `hashPrevBlock`
differs from `m_best_prev_hash`. -/
def PruneBlockTemplateCache (now : Int) (s : TPState) : TPState :=
  let recent := now - 10
  if s.m_last_block_time > recent then s
  else
    let kept := s.m_block_template_cache.filter
      (fun kv => kv.2.getBlockHeader.hashPrevBlock == s.m_best_prev_hash)
    { s with m_block_template_cache := kept }

/-- `Sv2TemplateProvider::SendWork`: appends `NewTemplate` built from the
template header, coinbase tx, merkle path, witness-commitment index,
the id and the flag; then, exactly when `future_template` is set, appends
`SetNewPrevHash` built from the same header and id.  Returns `true`
unconditionally, as the source does. -/
def SendWork (client : Sv2Client) (template_id : Nat) (block_template : BlockTemplate)
    (future_template : Bool) : Sv2Client × Bool :=
  let header := block_template.getBlockHeader
  let client :=
    { client with m_send_messages := client.m_send_messages ++
        [Sv2Msg.NewTemplate header block_template.coinbaseTx
          block_template.coinbaseMerklePath block_template.witnessCommitmentIndex
          template_id future_template] }
  let client :=
    if future_template then
      { client with m_send_messages := client.m_send_messages ++
          [Sv2Msg.SetNewPrevHash header template_id] }
    else client
  (client, true)

/-- `Sv2TemplateProvider::RequestTransactionData`, total version.  The
source indexes `block.vtx[0]`, its `vin[0]` and (when the witness is not
null) `scriptWitness.stack[0]` without bounds checks; here those accesses
read a default on out-of-range (the checked variant below records
whether each access was in bounds). -/
def RequestTransactionData (s : TPState) (client : Sv2Client) (template_id : Nat) :
    TPState × Sv2Client :=
  match mapFind s.m_block_template_cache template_id with
  | none =>
      (s, { client with m_send_messages := client.m_send_messages ++
            [Sv2Msg.RequestTransactionDataError template_id ("template-id-not-found")] })
  | some cached =>
      let block := cached.getBlock
      if block.hashPrevBlock != s.m_best_prev_hash then
        (s, { client with m_send_messages := client.m_send_messages ++
              [Sv2Msg.RequestTransactionDataError template_id ("stale-template-id")] })
      else
        let scriptWitness := ((block.vtx.headD ⟨[]⟩).vin.headD ⟨⟨[]⟩⟩).scriptWitness
        let witness_reserve_value : List Nat :=
          if !scriptWitness.IsNull then scriptWitness.stack.headD [] else []
        let txs : List CTransaction :=
          if block.vtx.length > 0 then block.vtx.drop 1 else []
        (s, { client with m_send_messages := client.m_send_messages ++
              [Sv2Msg.RequestTransactionDataSuccess template_id witness_reserve_value txs] })

/-- `Sv2TemplateProvider::RequestTransactionData`, checked version: the
same control flow, but every unchecked index of the source
(`block.vtx[0]`, `.vin[0]`, `scriptWitness.stack[0]`) is an `Option`
access, so the result is `none` exactly when the source would read out
of bounds. -/
def RequestTransactionDataChecked (s : TPState) (client : Sv2Client) (template_id : Nat) :
    Option (TPState × Sv2Client) :=
  match mapFind s.m_block_template_cache template_id with
  | none =>
      some (s, { client with m_send_messages := client.m_send_messages ++
            [Sv2Msg.RequestTransactionDataError template_id ("template-id-not-found")] })
  | some cached =>
      let block := cached.getBlock
      if block.hashPrevBlock != s.m_best_prev_hash then
        some (s, { client with m_send_messages := client.m_send_messages ++
              [Sv2Msg.RequestTransactionDataError template_id ("stale-template-id")] })
      else
        match block.vtx.head? with
        | none => none
        | some coinbase =>
          match coinbase.vin.head? with
          | none => none
          | some input0 =>
            let scriptWitness := input0.scriptWitness
            match (if !scriptWitness.IsNull then
                     (scriptWitness.stack.head?).map (fun w => w)
                   else some []) with
            | none => none
            | some witness_reserve_value =>
              let txs : List CTransaction :=
                if block.vtx.length > 0 then block.vtx.drop 1 else []
              some (s, { client with m_send_messages := client.m_send_messages ++
                    [Sv2Msg.RequestTransactionDataSuccess template_id witness_reserve_value txs] })

/-- `MAX_MONEY` (consensus/amount.h): 21 million coins in satoshis. -/
def MAX_MONEY : Int := 21000000 * 100000000

/-- `Sv2TemplateProviderOptions`, restricted to the fields the watcher
reads.  `fee_check_interval` is in seconds, `fee_delta` in satoshis. -/
structure Sv2TemplateProviderOptions where
  fee_check_interval : Int
  fee_delta : Int
  is_test : Bool
deriving DecidableEq, Repr

/-- `node::BlockWaitOptions`: fee threshold in satoshis and an optional
timeout in milliseconds (`none` models the default "no timeout"). -/
structure BlockWaitOptions where
  fee_threshold : Int
  timeout : Option Int
deriving DecidableEq, Repr

/-- The local `Timer` of `ThreadSv2ClientHandler`. -/
structure Timer where
  m_interval : Int
  m_last_triggered : Int
deriving DecidableEq, Repr

/-- `Timer::trigger`, with the current wall-clock second passed
explicitly: fires (and records the firing time) exactly when at least
`m_interval` seconds have passed since the last firing. -/
def Timer.trigger (t : Timer) (now : Int) : Bool × Timer :=
  if now - t.m_last_triggered ≥ t.m_interval then
    (true, { t with m_last_triggered := now })
  else (false, t)

/-- `Timer::reset`. -/
def Timer.reset (t : Timer) (now : Int) : Timer :=
  { t with m_last_triggered := now }

/-- Lines 237-253 of `ThreadSv2ClientHandler`: decide `check_fees`
(`m_options.is_test || timer.trigger()`, short-circuit: the timer is not
consulted in test mode), pick `fee_delta`, and fill `BlockWaitOptions`.
Returns `(check_fees, updated timer, options passed to waitNext)`. -/
def steadyWaitSetup (opts : Sv2TemplateProviderOptions) (timer : Timer) (now : Int) :
    Bool × Timer × BlockWaitOptions :=
  let (check_fees, timer') :=
    if opts.is_test then (true, timer) else timer.trigger now
  let fee_delta : Int := if check_fees then opts.fee_delta else MAX_MONEY
  let wait_options : BlockWaitOptions :=
    { fee_threshold := fee_delta,
      timeout :=
        if !check_fees then some (1000 * opts.fee_check_interval)
        else if opts.is_test then some 1000 else none }
  (check_fees, timer', wait_options)

/-- Lines 200-208 of `ThreadSv2ClientHandler` (initial-template path):
under `m_tp_mutex`, if the `hashPrevBlock` of the new template differs from
`m_best_prev_hash`, update `m_best_prev_hash` and refresh
`m_last_block_time`. -/
def initialTipUpdate (s : TPState) (prev_hash : Hash) (now : Int) : TPState :=
  if prev_hash != s.m_best_prev_hash then
    { s with m_best_prev_hash := prev_hash, m_last_block_time := now }
  else s

/-- Lines 266-280 of `ThreadSv2ClientHandler` (steady-state path): under
`m_tp_mutex`, if the `hashPrevBlock` of the new template differs from the
remembered `old_prev_hash`, set `future_template`, update
`m_best_prev_hash` and refresh `m_last_block_time`; in either case
increment `m_template_id`.  Returns the state and `future_template`. -/
def steadyTipUpdate (s : TPState) (old_prev_hash new_prev_hash : Hash) (now : Int) :
    TPState × Bool :=
  let (s, future_template) :=
    if new_prev_hash != old_prev_hash then
      ({ s with m_best_prev_hash := new_prev_hash, m_last_block_time := now }, true)
    else (s, false)
  ({ s with m_template_id := s.m_template_id + 1 }, future_template)

/-- Result of one steady-state iteration body (the `tmpl` branch). -/
structure SteadyIterResult where
  state : TPState
  client : Sv2Client
  timer : Timer
  /-- `true` when control reaches the end of the body and the `while`
  loop proceeds to its next iteration (no `break` was executed). -/
  continues : Bool
deriving DecidableEq, Repr

/-- Lines 264-297 of `ThreadSv2ClientHandler`: the steady-state loop
body after `waitNext` returned a new template `tmpl`, for an iteration
in which the client is found at both registry look-ups.  `send_ok` is
the boolean result of the emission: the `SendWork` of this source always
returns `true` (so the `false` branch is dead code here), but the branch
is embedded as the source writes it, with the emission result as an
input.  On `send_ok = false` the source sets `m_disconnect_flag` and
falls through: it still resets the timer, inserts the template into the
cache under the (re-read) `m_template_id`, and continues the loop. -/
def steadyNewTemplateStep (s : TPState) (client : Sv2Client) (old_prev_hash : Hash)
    (tmpl : BlockTemplate) (send_ok : Bool) (now : Int) (timer : Timer) :
    SteadyIterResult :=
  let new_prev_hash := tmpl.getBlockHeader.hashPrevBlock
  let (s, future_template) := steadyTipUpdate s old_prev_hash new_prev_hash now
  let (client, _emitted) := SendWork client s.m_template_id tmpl future_template
  let client :=
    if !send_ok then { client with m_disconnect_flag := true } else client
  let timer := timer.reset now
  let cache := mapInsert s.m_block_template_cache s.m_template_id tmpl
  let s := { s with m_block_template_cache := cache }
  { state := s, client := client, timer := timer, continues := true }

/-- `ChainType` (the variants relevant to this code). -/
inductive ChainType where
  | MAIN
  | TESTNET
  | SIGNET
  | REGTEST
deriving DecidableEq, Repr

/-- The IBD poll loop of `ThreadSv2Handler` (lines 118-125): while the
interrupt flag is unset and the chain is not signet, poll
`isInitialBlockDownload`; leave the loop when it returns `false`,
otherwise sleep one second and poll again.  Each list element is one
loop-head observation `(interrupt flag, isInitialBlockDownload)`;
the result counts the one-second sleeps performed. -/
def ibdWaitSleeps (chain : ChainType) : List (Bool × Bool) → Nat
  | [] => 0
  | (interrupt, ibd) :: rest =>
      if !interrupt && chain != ChainType.SIGNET then
        if !ibd then 0
        else 1 + ibdWaitSleeps chain rest
      else 0

/-- Result of the startup phase of `ThreadSv2Handler`. -/
structure StartupResult where
  /-- `true` when the thread returned before touching any shared state
  (`waitTipChanged` returned nothing, i.e. shutdown). -/
  early_exit : Bool
  state : TPState
  sleeps : Nat
deriving DecidableEq, Repr

/-- Lines 101-125 of `ThreadSv2Handler`: block on
`waitTipChanged(uint256::ZERO)`; if it returns nothing, exit without
touching shared state; otherwise initialize `m_last_block_time` to the
current time and run the IBD poll loop (skipped entirely on signet). -/
def ThreadSv2HandlerStartup (tip : Option Hash) (now : Int) (chain : ChainType)
    (polls : List (Bool × Bool)) (s : TPState) : StartupResult :=
  match tip with
  | none => { early_exit := true, state := s, sleeps := 0 }
  | some _ =>
      { early_exit := false,
        state := { s with m_last_block_time := now },
        sleeps := ibdWaitSleeps chain polls }

/-- Line 182 of `ThreadSv2ClientHandler` (initial-template path):
`WITH_LOCK(m_tp_mutex, return ++m_template_id;)` — one critical section
that pre-increments the counter and returns the incremented value. -/
def allocateTemplateId (s : TPState) : TPState × Nat :=
  ({ s with m_template_id := s.m_template_id + 1 }, s.m_template_id + 1)

/-!
Interleaving model of the steady-state id publication.  In the source
the steady-state path touches `m_template_id` in three *separate*
`m_tp_mutex` critical sections: line 279 (`++m_template_id`), line 287
(`WITH_LOCK(m_tp_mutex, return m_template_id;)`, the id placed in the
emitted `NewTemplate`), and lines 296-297 (`LOCK(m_tp_mutex);
m_block_template_cache.insert({m_template_id, block_template});`, which
reads the counter again).  Two per-client watcher threads running this
path concurrently are modelled below; one model step is one critical
section, exactly the atomicity the mutex provides.
-/

/-- Program counter of one watcher thread through the three
`m_tp_mutex` critical sections of the steady-state publication. -/
structure WatcherThread where
  /-- 0: before line 279; 1: before line 287; 2: before line 297; 3: done. -/
  pc : Nat
  /-- The template id carried by the `NewTemplate` this thread emitted
  (the value read at line 287), once emitted. -/
  sent_id : Option Nat
deriving DecidableEq, Repr

/-- Shared state of the two-watcher interleaving: the counter, both
threads, the cache keyed as in `mapInsert`, and the temporal sequence of
keys passed to `insert`. -/
structure RaceState where
  m_template_id : Nat
  thA : WatcherThread
  thB : WatcherThread
  cache : List (Nat × Nat)
  insert_log : List Nat
deriving DecidableEq, Repr

/-- `std::map::insert` for the race model; the value is a tag naming the
template of the inserting thread. -/
def raceInsert (m : List (Nat × Nat)) (k : Nat) (v : Nat) : List (Nat × Nat) :=
  if (m.find? (fun kv => kv.1 == k)).isSome then m else m ++ [(k, v)]

/-- One critical section of one thread (`tag` is the template tag of the thread: 0 for A, 1 for B). -/
def watcherSection (counter : Nat) (cache : List (Nat × Nat)) (log : List Nat)
    (th : WatcherThread) (tag : Nat) :
    Nat × List (Nat × Nat) × List Nat × WatcherThread :=
  match th.pc with
  | 0 => (counter + 1, cache, log, { th with pc := 1 })
  | 1 => (counter, cache, log, { pc := 2, sent_id := some counter })
  | 2 => (counter, raceInsert cache counter tag, log ++ [counter], { th with pc := 3 })
  | _ => (counter, cache, log, th)

/-- Scheduler step: `false` runs thread A, `true` runs thread B. -/
def raceStep (σ : RaceState) (choice : Bool) : RaceState :=
  if !choice then
    let (c, m, l, th) := watcherSection σ.m_template_id σ.cache σ.insert_log σ.thA 0
    { σ with m_template_id := c, cache := m, insert_log := l, thA := th }
  else
    let (c, m, l, th) := watcherSection σ.m_template_id σ.cache σ.insert_log σ.thB 1
    { σ with m_template_id := c, cache := m, insert_log := l, thB := th }

/-- Run a schedule of thread choices from a state. -/
def raceRun (σ : RaceState) : List Bool → RaceState
  | [] => σ
  | c :: rest => raceRun (raceStep σ c) rest

/-- Both watchers at the start of the steady-state publication, counter
fresh, cache empty. -/
def raceInit : RaceState :=
  { m_template_id := 0,
    thA := { pc := 0, sent_id := none },
    thB := { pc := 0, sent_id := none },
    cache := [],
    insert_log := [] }

/-! ### Concrete fixtures used by witnesses and counterexamples -/

/-- A template rooted on parent hash 5 with an empty transaction list. -/
def tmplFive : BlockTemplate :=
  { header := ⟨5⟩, block := ⟨5, []⟩, coinbaseTx := 0, coinbaseMerklePath := 0,
    witnessCommitmentIndex := 0 }

/-- A state whose tip is hash 0, last tip change at second 0, holding
one cached template rooted on the different parent 5. -/
def stStale : TPState :=
  { m_best_prev_hash := 0, m_last_block_time := 0, m_template_id := 1,
    m_block_template_cache := [(1, tmplFive)] }

/-- A client with an empty outbound queue. -/
def clientEmpty : Sv2Client :=
  { m_id := 3, m_send_messages := [], m_disconnect_flag := false }

/-! ### C1 — pruning policy -/

/-- C1 counterexample: at exactly 10 seconds after the last tip change
(`now − m_last_block_time = 10 ≤ 10`) the claim says the cache is left
completely unchanged, but `PruneBlockTemplateCache` (whose guard is
`m_last_block_time > now − 10`, i.e. strictly-less-than-10 protection)
does prune the stale entry. -/
theorem pruneBlockTemplateCache_boundary_cex :
    (10 : Int) - stStale.m_last_block_time ≤ 10 ∧
    PruneBlockTemplateCache 10 stStale ≠ stStale ∧
    (PruneBlockTemplateCache 10 stStale).m_block_template_cache = [] := by
  decide

/-- C1 (amended): `PruneBlockTemplateCache` leaves the state completely
unchanged whenever `now − m_last_block_time < 10` (strictly: at exactly
10 seconds it already prunes); otherwise it erases exactly those entries
whose template `hashPrevBlock` differs from `m_best_prev_hash` and
touches nothing else, so after pruning every remaining entry either has
`hashPrevBlock = m_best_prev_hash` or was protected by the (strict)
grace window. -/
theorem pruneBlockTemplateCache_correct (now : Int) (s : TPState) :
    (now - s.m_last_block_time < 10 → PruneBlockTemplateCache now s = s) ∧
    (10 ≤ now - s.m_last_block_time →
      (PruneBlockTemplateCache now s).m_best_prev_hash = s.m_best_prev_hash ∧
      (PruneBlockTemplateCache now s).m_last_block_time = s.m_last_block_time ∧
      (PruneBlockTemplateCache now s).m_template_id = s.m_template_id ∧
      (PruneBlockTemplateCache now s).m_block_template_cache =
        s.m_block_template_cache.filter
          (fun kv => kv.2.getBlockHeader.hashPrevBlock == s.m_best_prev_hash)) ∧
    (∀ kv ∈ (PruneBlockTemplateCache now s).m_block_template_cache,
      kv.2.getBlockHeader.hashPrevBlock = s.m_best_prev_hash ∨
        now - s.m_last_block_time < 10) := by
  unfold PruneBlockTemplateCache
  by_cases h : s.m_last_block_time > now - 10
  · simp only [if_pos h]
    refine ⟨fun _ => trivial, fun h10 => absurd h (by omega), fun kv _ => Or.inr (by omega)⟩
  · simp only [if_neg h]
    refine ⟨fun hlt => absurd hlt (by omega), fun _ => ⟨trivial, trivial, trivial, trivial⟩, ?_⟩
    intro kv hkv
    have := List.of_mem_filter hkv
    exact Or.inl (by simpa using this)

/-- C1 witness: one second after the tip change the stale entry is
protected. -/
theorem pruneBlockTemplateCache_correct_witness :
    PruneBlockTemplateCache 1 stStale = stStale :=
  (pruneBlockTemplateCache_correct 1 stStale).1 (by decide)

/-! ### C3 — SendWork emission order -/

/-- C3: `SendWork` appends exactly one `NewTemplate` carrying the id and
the `future_template` flag, followed by a `SetNewPrevHash` with the same
header and id exactly when `future_template` is true; it enqueues
nothing else, touches no other client field, and returns `true`. -/
theorem sendWork_messages (c : Sv2Client) (id : Nat) (bt : BlockTemplate) (f : Bool) :
    (SendWork c id bt f).1.m_send_messages =
      c.m_send_messages ++
        [Sv2Msg.NewTemplate bt.getBlockHeader bt.coinbaseTx bt.coinbaseMerklePath
            bt.witnessCommitmentIndex id f] ++
        (if f then [Sv2Msg.SetNewPrevHash bt.getBlockHeader id] else []) ∧
    (SendWork c id bt f).1.m_id = c.m_id ∧
    (SendWork c id bt f).1.m_disconnect_flag = c.m_disconnect_flag ∧
    (SendWork c id bt f).2 = true := by
  unfold SendWork
  cases f <;> simp

/-! ### C6 — template-id uniqueness -/

/-- C6: two watcher threads running the steady-state publication
(`++m_template_id` at line 279, the id re-read for `SendWork` at line
287, the id re-read again for the cache insert at line 297 — three
separate `m_tp_mutex` critical sections) can interleave so that both
emit a `NewTemplate` carrying the same id 2, the cache-insert key
sequence is `[2, 2]` (not strictly increasing), and the second
template is silently dropped by `std::map::insert`. -/
theorem templateId_race :
    (raceRun raceInit [false, true, false, true, false, true]).thA.sent_id = some 2 ∧
    (raceRun raceInit [false, true, false, true, false, true]).thB.sent_id = some 2 ∧
    (raceRun raceInit [false, true, false, true, false, true]).insert_log = [2, 2] ∧
    (raceRun raceInit [false, true, false, true, false, true]).cache = [(2, 0)] := by
  decide

/-! ### C2 — RequestTransactionData error paths -/

/-- C2: on a `RequestTransactionData` whose id is absent from the cache,
exactly one `RequestTransactionData.Error` with reason
"template-id-not-found" is enqueued and nothing else happens; when the
id is present but the cached template `hashPrevBlock` differs from
`m_best_prev_hash`, exactly one error with reason "stale-template-id"
is enqueued and nothing else happens; in both cases the supervisor state
(including the cache, `m_best_prev_hash`, `m_last_block_time` and
`m_template_id`) is returned unchanged. -/
theorem requestTransactionData_error_paths (s : TPState) (c : Sv2Client) (id : Nat) :
    (mapFind s.m_block_template_cache id = none →
      RequestTransactionData s c id =
        (s, { c with m_send_messages := c.m_send_messages ++
              [Sv2Msg.RequestTransactionDataError id ("template-id-not-found")] })) ∧
    (∀ t, mapFind s.m_block_template_cache id = some t →
      t.getBlock.hashPrevBlock ≠ s.m_best_prev_hash →
      RequestTransactionData s c id =
        (s, { c with m_send_messages := c.m_send_messages ++
              [Sv2Msg.RequestTransactionDataError id ("stale-template-id")] })) := by
  constructor
  · intro hnone
    unfold RequestTransactionData
    rw [hnone]
  · intro t hsome hne
    unfold RequestTransactionData
    rw [hsome]
    simp only [bne_iff_ne, ne_eq]
    rw [if_pos hne]

/-- C2 witness: a request against an empty cache yields exactly the
not-found error. -/
theorem requestTransactionData_error_paths_witness :
    RequestTransactionData { stStale with m_block_template_cache := [] } clientEmpty 7 =
      ({ stStale with m_block_template_cache := [] },
       { clientEmpty with m_send_messages := clientEmpty.m_send_messages ++
            [Sv2Msg.RequestTransactionDataError 7 ("template-id-not-found")] }) :=
  (requestTransactionData_error_paths
    { stStale with m_block_template_cache := [] } clientEmpty 7).1 (by decide)

/-! ### C4 — behaviour on emission failure -/

/-- C4 counterexample: with the emission result `false`, the
steady-state body does set the client flag `m_disconnect_flag`, but the
claimed "terminates its loop, performing no further iterations" is
false: control reaches the end of the body (`continues = true`) and the
body still performs further work (the cache gains the new template). -/
theorem steadySendFailure_cex :
    (steadyNewTemplateStep stStale clientEmpty 0 tmplFive false 100
        { m_interval := 30, m_last_triggered := 0 }).client.m_disconnect_flag = true ∧
    (steadyNewTemplateStep stStale clientEmpty 0 tmplFive false 100
        { m_interval := 30, m_last_triggered := 0 }).continues = true ∧
    (steadyNewTemplateStep stStale clientEmpty 0 tmplFive false 100
        { m_interval := 30, m_last_triggered := 0 }).state.m_block_template_cache ≠
      stStale.m_block_template_cache := by
  decide

/-- C4 (amended): in this source `SendWork` never fails (it returns
`true` unconditionally, so the failure branch is dead code); were the
emission result `false`, the watcher would set the client
`m_disconnect_flag` but would not terminate its loop: the iteration
completes exactly as on success (same supervisor state, same timer
reset, same enqueued messages) and the loop continues; the watcher only
exits later, when a client registry look-up fails. -/
theorem steadySendFailure_behavior (s : TPState) (c : Sv2Client) (old_ph : Hash)
    (tmpl : BlockTemplate) (now : Int) (tm : Timer) :
    (steadyNewTemplateStep s c old_ph tmpl false now tm).client.m_disconnect_flag = true ∧
    (steadyNewTemplateStep s c old_ph tmpl false now tm).continues = true ∧
    (steadyNewTemplateStep s c old_ph tmpl false now tm).state =
      (steadyNewTemplateStep s c old_ph tmpl true now tm).state ∧
    (steadyNewTemplateStep s c old_ph tmpl false now tm).timer =
      (steadyNewTemplateStep s c old_ph tmpl true now tm).timer ∧
    (steadyNewTemplateStep s c old_ph tmpl false now tm).client.m_send_messages =
      (steadyNewTemplateStep s c old_ph tmpl true now tm).client.m_send_messages ∧
    (∀ c2 id2 t2 f2, (SendWork c2 id2 t2 f2).2 = true) := by
  have hsw : ∀ (c2 : Sv2Client) (id2 : Nat) (t2 : BlockTemplate) (f2 : Bool),
      (SendWork c2 id2 t2 f2).2 = true := by
    intro c2 id2 t2 f2
    unfold SendWork
    cases f2 <;> simp
  refine ⟨?_, ?_, ?_, ?_, ?_, hsw⟩
  all_goals
    unfold steadyNewTemplateStep SendWork steadyTipUpdate
    cases hb : tmpl.getBlockHeader.hashPrevBlock != old_ph <;> simp [hb]

/-! ### C5 — RequestTransactionData success path -/

/-- C5: on the success path (template found, `hashPrevBlock` equal to
`m_best_prev_hash`, block well-formed), the enqueued
`RequestTransactionData.Success` carries the coinbase witness stack
element 0 as the witness reserve value — the empty vector when the
coinbase witness is null — and the transactions of the cached block from
index 1 onward; nothing else is enqueued and the state is unchanged. -/
theorem requestTransactionData_success_path (s : TPState) (c : Sv2Client) (id : Nat)
    (t : BlockTemplate) (coinbase : CTransaction) (rest : List CTransaction)
    (input0 : CTxIn) (vrest : List CTxIn)
    (hfind : mapFind s.m_block_template_cache id = some t)
    (hprev : t.getBlock.hashPrevBlock = s.m_best_prev_hash)
    (hvtx : t.getBlock.vtx = coinbase :: rest)
    (hvin : coinbase.vin = input0 :: vrest) :
    RequestTransactionData s c id =
      (s, { c with m_send_messages := c.m_send_messages ++
            [Sv2Msg.RequestTransactionDataSuccess id
              (if input0.scriptWitness.IsNull then [] else input0.scriptWitness.stack.headD [])
              rest] }) := by
  unfold RequestTransactionData
  rw [hfind]
  simp only [bne_iff_ne, ne_eq, hprev, not_true_eq_false, if_neg, hvtx, hvin,
    List.headD_cons, List.length_cons, List.drop_succ_cons, List.drop_zero]
  cases hw : input0.scriptWitness.IsNull <;> simp [hw]

/-- The coinbase input of the concrete C5 block: witness stack `[[42]]`. -/
def coinbaseInput : CTxIn := { scriptWitness := { stack := [[42]] } }

/-- The concrete C5 coinbase transaction. -/
def coinbaseTxFix : CTransaction := { vin := [coinbaseInput] }

/-- The concrete C5 non-coinbase transaction. -/
def otherTxFix : CTransaction := { vin := [] }

/-- A template rooted on parent 9 holding the two transactions above. -/
def tmplNine : BlockTemplate :=
  { header := ⟨9⟩, block := { hashPrevBlock := 9, vtx := [coinbaseTxFix, otherTxFix] },
    coinbaseTx := 0, coinbaseMerklePath := 0, witnessCommitmentIndex := 0 }

/-- A state whose tip is 9 and whose cache holds `tmplNine` under id 1. -/
def stNine : TPState :=
  { m_best_prev_hash := 9, m_last_block_time := 0, m_template_id := 1,
    m_block_template_cache := [(1, tmplNine)] }

/-- C5 witness: on the concrete cached block the success message carries
the coinbase witness stack head and the transactions after the coinbase. -/
theorem requestTransactionData_success_path_witness :
    RequestTransactionData stNine clientEmpty 1 =
      (stNine, { clientEmpty with m_send_messages := clientEmpty.m_send_messages ++
            [Sv2Msg.RequestTransactionDataSuccess 1
              (if coinbaseInput.scriptWitness.IsNull then []
               else coinbaseInput.scriptWitness.stack.headD [])
              [otherTxFix]] }) :=
  requestTransactionData_success_path stNine clientEmpty 1 tmplNine coinbaseTxFix
    [otherTxFix] coinbaseInput []
    (by decide) (by decide) (by decide) (by decide)

/-! ### C7 — fee-check decision and waitNext options -/

/-- C7: in each steady-state iteration `check_fees` is true exactly when
the fee timer has elapsed (at least `m_interval` seconds since its last
firing) or the watcher is in test mode; with `check_fees` the wait
options carry `fee_threshold = fee_delta` and a 1000 ms timeout in test
mode (no timeout otherwise); without `check_fees` they carry
`fee_threshold = MAX_MONEY` and `timeout = fee_check_interval`. -/
theorem steadyWaitSetup_spec (opts : Sv2TemplateProviderOptions) (tm : Timer) (now : Int) :
    ((steadyWaitSetup opts tm now).1 = true ↔
      (opts.is_test = true ∨ now - tm.m_last_triggered ≥ tm.m_interval)) ∧
    ((steadyWaitSetup opts tm now).1 = true →
      (steadyWaitSetup opts tm now).2.2.fee_threshold = opts.fee_delta ∧
      (steadyWaitSetup opts tm now).2.2.timeout =
        (if opts.is_test then some 1000 else none)) ∧
    ((steadyWaitSetup opts tm now).1 = false →
      (steadyWaitSetup opts tm now).2.2.fee_threshold = MAX_MONEY ∧
      (steadyWaitSetup opts tm now).2.2.timeout = some (1000 * opts.fee_check_interval)) := by
  unfold steadyWaitSetup Timer.trigger
  cases ht : opts.is_test <;>
    by_cases he : now - tm.m_last_triggered ≥ tm.m_interval <;>
      simp [ht, he]

/-- C7 witness: with the timer elapsed outside test mode, `check_fees`
holds and `waitNext` is given the fee delta with no timeout. -/
theorem steadyWaitSetup_spec_witness :
    (steadyWaitSetup { fee_check_interval := 30, fee_delta := 1000, is_test := false }
        { m_interval := 30, m_last_triggered := 0 } 60).2.2.fee_threshold = 1000 ∧
    (steadyWaitSetup { fee_check_interval := 30, fee_delta := 1000, is_test := false }
        { m_interval := 30, m_last_triggered := 0 } 60).2.2.timeout = none :=
  (steadyWaitSetup_spec { fee_check_interval := 30, fee_delta := 1000, is_test := false }
      { m_interval := 30, m_last_triggered := 0 } 60).2.1 (by decide)

/-! ### C8 — tip bookkeeping on new templates -/

/-- C8: `m_best_prev_hash` and `m_last_block_time` are both updated
exactly when the `hashPrevBlock` of the newly obtained template differs from
the reference hash — `m_best_prev_hash` itself on the initial-template
path, the remembered `old_prev_hash` on the steady-state path (which
then also reports `future_template`); a fee-only improvement (same
prev-hash) leaves both fields unchanged on either path. -/
theorem tipUpdate_spec (s : TPState) (ph old_ph new_ph : Hash) (now : Int) :
    (ph = s.m_best_prev_hash → initialTipUpdate s ph now = s) ∧
    (ph ≠ s.m_best_prev_hash →
      initialTipUpdate s ph now =
        { s with m_best_prev_hash := ph, m_last_block_time := now }) ∧
    (new_ph = old_ph →
      (steadyTipUpdate s old_ph new_ph now).1.m_best_prev_hash = s.m_best_prev_hash ∧
      (steadyTipUpdate s old_ph new_ph now).1.m_last_block_time = s.m_last_block_time ∧
      (steadyTipUpdate s old_ph new_ph now).2 = false) ∧
    (new_ph ≠ old_ph →
      (steadyTipUpdate s old_ph new_ph now).1.m_best_prev_hash = new_ph ∧
      (steadyTipUpdate s old_ph new_ph now).1.m_last_block_time = now ∧
      (steadyTipUpdate s old_ph new_ph now).2 = true) := by
  unfold initialTipUpdate steadyTipUpdate
  refine ⟨fun h => ?_, fun h => ?_, fun h => ?_, fun h => ?_⟩ <;>
    simp [h, bne_iff_ne]

/-- C8 witness: a fee-only improvement (new prev-hash equal to the old
one) leaves both fields untouched and does not mark a future template. -/
theorem tipUpdate_spec_witness :
    (steadyTipUpdate stStale 4 4 99).1.m_best_prev_hash = stStale.m_best_prev_hash ∧
    (steadyTipUpdate stStale 4 4 99).1.m_last_block_time = stStale.m_last_block_time ∧
    (steadyTipUpdate stStale 4 4 99).2 = false :=
  (tipUpdate_spec stStale 0 4 4 99).2.2.1 (by decide)

/-! ### C9 — supervisor startup -/

/-- C9: the startup phase exits cleanly, with the shared state untouched
and no polling, when `waitTipChanged(ZERO_HASH)` returns nothing;
otherwise it initializes `m_last_block_time` to the current time and
runs the IBD poll loop, which is skipped entirely on signet and
otherwise leaves at the first observation where the interrupt flag is
set or IBD has ended, sleeping one second per continuing poll. -/
theorem threadSv2HandlerStartup_spec (tip : Option Hash) (now : Int) (chain : ChainType)
    (polls : List (Bool × Bool)) (s : TPState) :
    (tip = none → ThreadSv2HandlerStartup tip now chain polls s =
      { early_exit := true, state := s, sleeps := 0 }) ∧
    (∀ h, tip = some h →
      (ThreadSv2HandlerStartup tip now chain polls s).early_exit = false ∧
      (ThreadSv2HandlerStartup tip now chain polls s).state =
        { s with m_last_block_time := now } ∧
      (ThreadSv2HandlerStartup tip now chain polls s).sleeps =
        ibdWaitSleeps chain polls) ∧
    (chain = ChainType.SIGNET → ibdWaitSleeps chain polls = 0) ∧
    (∀ interrupt ibd rest, chain ≠ ChainType.SIGNET →
      ibdWaitSleeps chain ((interrupt, ibd) :: rest) =
        (if interrupt = true ∨ ibd = false then 0
         else 1 + ibdWaitSleeps chain rest)) := by
  refine ⟨fun hnone => ?_, fun h hsome => ?_, fun hsig => ?_, fun interrupt ibd rest hns => ?_⟩
  · rw [hnone]; rfl
  · rw [hsome]; exact ⟨rfl, rfl, rfl⟩
  · cases polls with
    | nil => rfl
    | cons p rest => unfold ibdWaitSleeps; simp [hsig]
  · cases hi : interrupt <;> cases hb : ibd <;>
      simp [ibdWaitSleeps, bne_iff_ne, hns]

/-- C9 witness: with a known tip off signet, two IBD polls then IBD
ends: no early exit, `m_last_block_time` set, two one-second sleeps. -/
theorem threadSv2HandlerStartup_spec_witness :
    (ThreadSv2HandlerStartup (some 7) 42 ChainType.MAIN
        [(false, true), (false, true), (false, false)] stStale).early_exit = false ∧
    (ThreadSv2HandlerStartup (some 7) 42 ChainType.MAIN
        [(false, true), (false, true), (false, false)] stStale).state =
      { stStale with m_last_block_time := 42 } ∧
    (ThreadSv2HandlerStartup (some 7) 42 ChainType.MAIN
        [(false, true), (false, true), (false, false)] stStale).sleeps =
      ibdWaitSleeps ChainType.MAIN [(false, true), (false, true), (false, false)] :=
  (threadSv2HandlerStartup_spec (some 7) 42 ChainType.MAIN
      [(false, true), (false, true), (false, false)] stStale).2.1 7 (by decide)

/-! ### C10 — bounds of the unchecked coinbase accesses -/

/-- A cached template whose block has no transactions at all, matching
the tip: the success path would index `block.vtx[0]` out of bounds. -/
def tmplNoCoinbase : BlockTemplate :=
  { header := ⟨9⟩, block := { hashPrevBlock := 9, vtx := [] },
    coinbaseTx := 0, coinbaseMerklePath := 0, witnessCommitmentIndex := 0 }

/-- A state caching `tmplNoCoinbase` under id 1 with matching tip 9. -/
def stNoCoinbase : TPState :=
  { m_best_prev_hash := 9, m_last_block_time := 0, m_template_id := 1,
    m_block_template_cache := [(1, tmplNoCoinbase)] }

/-- C10: the success path of `RequestTransactionData` indexes
`block.vtx[0]`, its `vin[0]` and (for a non-null witness)
`scriptWitness.stack[0]` without emptiness checks; the checked embedding
agrees with the total one — every access in bounds — exactly under the
precondition that the cached block has a coinbase with at least one
input whose non-null witness has a non-empty stack, and under that
precondition the later `block.vtx.size() > 0` guard is always satisfied;
without the precondition an access goes out of bounds (the checked
embedding returns `none` on a cached block with no coinbase). -/
theorem requestTransactionData_access_safety (s : TPState) (c : Sv2Client) (id : Nat)
    (t : BlockTemplate) (coinbase : CTransaction) (rest : List CTransaction)
    (input0 : CTxIn) (vrest : List CTxIn)
    (hfind : mapFind s.m_block_template_cache id = some t)
    (hvtx : t.getBlock.vtx = coinbase :: rest)
    (hvin : coinbase.vin = input0 :: vrest)
    (hwit : input0.scriptWitness.IsNull = false → input0.scriptWitness.stack ≠ []) :
    RequestTransactionDataChecked s c id = some (RequestTransactionData s c id) ∧
    t.getBlock.vtx.length > 0 ∧
    RequestTransactionDataChecked stNoCoinbase clientEmpty 1 = none := by
  refine ⟨?_, by rw [hvtx]; simp, by decide⟩
  unfold RequestTransactionData RequestTransactionDataChecked
  rw [hfind]
  by_cases hbp : t.getBlock.hashPrevBlock = s.m_best_prev_hash
  · cases hw : input0.scriptWitness.IsNull
    · obtain ⟨w, ws, hws⟩ := List.exists_cons_of_ne_nil (hwit hw)
      simp [hbp, hvtx, hvin, hw, hws]
    · simp [hbp, hvtx, hvin, hw]
  · simp [hbp]

/-- C10 witness: the well-formed concrete block of `stNine` satisfies
the precondition, so the checked and total handlers agree there. -/
theorem requestTransactionData_access_safety_witness :
    RequestTransactionDataChecked stNine clientEmpty 1 =
      some (RequestTransactionData stNine clientEmpty 1) ∧
    tmplNine.getBlock.vtx.length > 0 :=
  ⟨(requestTransactionData_access_safety stNine clientEmpty 1 tmplNine coinbaseTxFix
      [otherTxFix] coinbaseInput [] (by decide) (by decide) (by decide)
      (fun _ => by decide)).1,
   (requestTransactionData_access_safety stNine clientEmpty 1 tmplNine coinbaseTxFix
      [otherTxFix] coinbaseInput [] (by decide) (by decide) (by decide)
      (fun _ => by decide)).2.1⟩
